import Mathlib

/-!
Shallow embedding of the order-management data layer
(`src/services/database.py` and the `/api/customer` route of
`src/api/main.py`).

The SQLite backing store is modelled as an association list from table
name to list of rows; a row is an association list from column name to a
scalar value.  The data directory is modelled as an association list
from file name to parsed content: either a JSON array of flat objects
(`jsonRows`) or an unparseable file (`invalid`).  Python exceptions
become `Except` errors; stateful methods return the resulting store
explicitly (on an exception the store is unchanged, as in the source,
where the file check and the parse both happen before `to_sql`).
-/

namespace OrderMgmt

/-- A scalar cell value as decoded from a JSON snapshot. -/
inductive Value where
  | str : String → Value
  | num : Int → Value
  | null : Value
deriving DecidableEq

/-- A row: association list from column name to value. -/
abbrev Row := List (String × Value)

/-- The backing store: association list from table name to row list. -/
abbrev Store := List (String × List Row)

/-- Parsed content of a snapshot file. -/
inductive FileContent where
  | jsonRows : List Row → FileContent
  | invalid : FileContent
deriving DecidableEq

/-- A data directory: association list from file name to content.
A name absent from the list is a file that does not exist. -/
abbrev FS := List (String × FileContent)

/-- First-match association-list lookup. -/
def alistGet {α : Type} : List (String × α) → String → Option α
  | [], _ => none
  | (k, v) :: rest, key => if k = key then some v else alistGet rest key

/-- Replace the named table's rows (create it if absent), as
`DataFrame.to_sql(..., if_exists='replace')` does. -/
def setTable : Store → String → List Row → Store
  | [], t, rows => [(t, rows)]
  | (u, rs) :: s, t, rows =>
      if u = t then (t, rows) :: s else (u, rs) :: setTable s t rows

/-- Error kinds raised by the service (`FileNotFoundError`,
`ValueError` from parsing, the wrapped query `Exception`, and the
`ValueError` for missing lookup keys). -/
inductive DbError where
  | fileNotFound : String → DbError
  | invalidData : String → DbError
  | queryFailed : String → DbError
  | invalidArgument : String → DbError
deriving DecidableEq

/-- The message carried by an error (Python `str(e)`). -/
def DbError.msg : DbError → String
  | .fileNotFound m => m
  | .invalidData m => m
  | .queryFailed m => m
  | .invalidArgument m => m

/-- `DatabaseService.import_from_json`: missing file raises
`FileNotFoundError`; an unparseable file raises `ValueError`; an empty
parsed frame returns 0 without touching the store; otherwise the table
is replaced with the file's rows and their count returned. -/
def import_from_json (fs : FS) (store : Store) (table_name json_file_path : String) :
    Store × Except DbError Nat :=
  match alistGet fs json_file_path with
  | none =>
      (store, .error (.fileNotFound ("JSON file not found: " ++ json_file_path)))
  | some .invalid =>
      (store, .error (.invalidData ("JSON file is empty or invalid: " ++ json_file_path)))
  | some (.jsonRows rows) =>
      if rows.isEmpty then (store, .ok 0)
      else (setTable store table_name rows, .ok rows.length)

/-- Per-table outcome recorded by `DatabaseService.initialize`. -/
inductive Outcome where
  | success : Nat → Outcome
  | skipped : String → Outcome
  | error : String → Outcome
deriving DecidableEq

/-- The four fixed table names, in the order the source iterates them. -/
def tables : List String := ["customers", "orders", "transactions", "refunds"]

/-- One iteration of the import loop in `DatabaseService.initialize`:
`FileNotFoundError` is recorded as SKIPPED, any other exception as
ERROR, success as SUCCESS with the row count. -/
def initStep (fs : FS) (acc : Store × List (String × Outcome)) (table_name : String) :
    Store × List (String × Outcome) :=
  match import_from_json fs acc.1 table_name (table_name ++ ".json") with
  | (s, .ok n) => (s, acc.2 ++ [(table_name, Outcome.success n)])
  | (_, .error (.fileNotFound m)) => (acc.1, acc.2 ++ [(table_name, Outcome.skipped m)])
  | (_, .error e) => (acc.1, acc.2 ++ [(table_name, Outcome.error e.msg)])

/-- `DatabaseService.initialize`: a data directory modelled as
`Option FS` (`none` when the directory does not exist, which raises
`FileNotFoundError` with the store untouched); otherwise the four
tables are imported in order and the per-table outcomes aggregated. -/
def initAll (dir : Option FS) (store : Store) :
    Store × Except DbError (List (String × Outcome)) :=
  match dir with
  | none => (store, .error (.fileNotFound "Data directory not found"))
  | some fs =>
      let res := tables.foldl (initStep fs) (store, [])
      (res.1, .ok res.2)

/-- `DatabaseService.query` specialised to the only shape of query the
service issues: `SELECT * FROM tbl WHERE col = ? LIMIT 1` with a string
parameter.  Querying a table absent from the SQLite file makes SQLite
raise `no such table`, which `query` wraps and re-raises; an existing
table yields the first matching row or `none`. -/
def queryOne (store : Store) (tbl col key : String) : Except DbError (Option Row) :=
  match alistGet store tbl with
  | none => .error (.queryFailed ("Error executing query: no such table: " ++ tbl))
  | some rows =>
      .ok ((rows.filter (fun r => alistGet r col == some (Value.str key))).head?)

/-- `DatabaseService.find_order`. -/
def find_order (store : Store) (order_no : String) : Except DbError (Option Row) :=
  queryOne store "orders" "order_no" order_no

/-- Python truthiness of an optional string: `None` and `""` are falsy. -/
def strTruthy : Option String → Bool
  | none => false
  | some s => !s.isEmpty

/-- `DatabaseService.find_customer`: raises `ValueError` when both keys
are falsy, before any query; otherwise selects by `customer_id` when it
is truthy, else by `email`. -/
def find_customer (store : Store) (customer_id email : Option String) :
    Except DbError (Option Row) :=
  if !strTruthy customer_id && !strTruthy email then
    .error (.invalidArgument "Either customer_id or email must be provided")
  else if strTruthy customer_id then
    queryOne store "customers" "customer_id" (customer_id.getD "")
  else
    queryOne store "customers" "email" (email.getD "")

/-- HTTP response shape of the route handlers (after the API-key check
has passed): a 200 with a JSON object, a 200 whose body carries an
`error` field, or a 400. -/
inductive ApiResponse where
  | ok : Row → ApiResponse
  | okError : String → ApiResponse
  | badRequest : String → ApiResponse
deriving DecidableEq

/-- Whether a response is a 400. -/
def isBadRequest : ApiResponse → Bool
  | .badRequest _ => true
  | _ => false

/-- Whether a result is a normal (non-exception) return. -/
def exceptIsOk : Except DbError (Option Row) → Bool
  | .ok _ => true
  | .error _ => false

/-- `None` for an empty query parameter, as the route passes
`email if email else None` into the service call. -/
def noneIfEmpty (s : String) : Option String :=
  if s.isEmpty then none else some s

/-- The `GET /api/customer` handler of `src/api/main.py` (API key
already verified): returns `{}` when both parameters are empty,
otherwise calls `find_customer`, translating `ValueError` to a 400 and
any other exception to a 200 body with an `error` field. -/
def api_find_customer (store : Store) (email customer_id : String) : ApiResponse :=
  if email.isEmpty && customer_id.isEmpty then .ok []
  else
    match find_customer store (noneIfEmpty customer_id) (noneIfEmpty email) with
    | .ok (some c) => .ok c
    | .ok none => .ok []
    | .error (.invalidArgument m) => .badRequest m
    | .error e => .okError ("Could not find customer: " ++ e.msg)

/-- Outcome of one table in `initAll`, read off directly from the file
system: absent file ↦ SKIPPED, unparseable file ↦ ERROR, parsed array ↦
SUCCESS with the row count. -/
def importOutcome (fs : FS) (t : String) : Outcome :=
  match alistGet fs (t ++ ".json") with
  | none => .skipped ("JSON file not found: " ++ (t ++ ".json"))
  | some .invalid => .error ("JSON file is empty or invalid: " ++ (t ++ ".json"))
  | some (.jsonRows rows) => .success rows.length

/-- Sample rows used to instantiate universally quantified theorems. -/
def ord1Row : Row :=
  [("order_no", Value.str "ORD1"), ("customer_id", Value.str "C1"),
   ("order_status", Value.str "SHIPPED")]

/-- A sample customer row. -/
def custRow : Row :=
  [("customer_id", Value.str "C1"), ("email", Value.str "bob@example.com"),
   ("name", Value.str "Bob")]

/-- A sample transaction row. -/
def txRow : Row :=
  [("transaction_id", Value.str "T1"), ("order_no", Value.str "ORD1")]

/-- A sample pre-existing row used to exhibit stale table contents. -/
def cxRow : Row := [("a", Value.str "x")]

/-- A sample data directory with three snapshot files and no
`refunds.json`. -/
def threeFS : FS :=
  [("customers.json", FileContent.jsonRows [custRow]),
   ("orders.json", FileContent.jsonRows [ord1Row]),
   ("transactions.json", FileContent.jsonRows [txRow])]

theorem isEmpty_false_of_ne (s : String) (h : s ≠ "") : s.isEmpty = false := by
  cases hb : s.isEmpty
  · rfl
  · exact absurd ((String.isEmpty_iff s).mp hb) h

theorem alistGet_setTable_self (s : Store) (t : String) (rows : List Row) :
    alistGet (setTable s t rows) t = some rows := by
  induction s with
  | nil => simp [setTable, alistGet]
  | cons hd tl ih =>
      obtain ⟨u, rs⟩ := hd
      by_cases h : u = t
      · simp [setTable, h, alistGet]
      · simp [setTable, h, alistGet, ih]

theorem alistGet_setTable_ne (s : Store) (t t' : String) (rows : List Row)
    (h : t' ≠ t) :
    alistGet (setTable s t' rows) t = alistGet s t := by
  induction s with
  | nil => simp [setTable, alistGet, h]
  | cons hd tl ih =>
      obtain ⟨u, rs⟩ := hd
      by_cases hu : u = t'
      · subst hu; simp [setTable, alistGet, h]
      · simp [setTable, hu, alistGet, ih]

theorem setTable_setTable_self (s : Store) (t : String) (rows : List Row) :
    setTable (setTable s t rows) t rows = setTable s t rows := by
  induction s with
  | nil => simp [setTable]
  | cons hd tl ih =>
      obtain ⟨u, rs⟩ := hd
      by_cases h : u = t
      · simp [setTable, h]
      · simp [setTable, h, ih]

theorem import_alistGet_ne (fs : FS) (s : Store) (tn p t : String) (h : tn ≠ t) :
    alistGet (import_from_json fs s tn p).1 t = alistGet s t := by
  unfold import_from_json
  cases hf : alistGet fs p with
  | none => simp
  | some c =>
      cases c with
      | invalid => simp
      | jsonRows rows =>
          by_cases hr : rows.isEmpty
          · simp [hr]
          · simp [hr, alistGet_setTable_ne s t tn rows h]

theorem import_alistGet_self (fs : FS) (s : Store) (tn p : String) (rows : List Row)
    (hf : alistGet fs p = some (.jsonRows rows)) (hne : rows ≠ []) :
    alistGet (import_from_json fs s tn p).1 tn = some rows := by
  simp [import_from_json, hf, hne, alistGet_setTable_self]

theorem initStep_eq (fs : FS) (acc : Store × List (String × Outcome)) (t : String) :
    initStep fs acc t =
      ((import_from_json fs acc.1 t (t ++ ".json")).1,
        acc.2 ++ [(t, importOutcome fs t)]) := by
  cases hf : alistGet fs (t ++ ".json") with
  | none => simp [initStep, import_from_json, importOutcome, hf]
  | some c =>
      cases c with
      | invalid => simp [initStep, import_from_json, importOutcome, hf, DbError.msg]
      | jsonRows rows =>
          by_cases hr : rows.isEmpty
          · have : rows = [] := by simpa using hr
            subst this
            simp [initStep, import_from_json, importOutcome, hf]
          · simp [initStep, import_from_json, importOutcome, hf, hr]

theorem initLoop_eq (fs : FS) (ts : List String) :
    ∀ acc : Store × List (String × Outcome),
      ts.foldl (initStep fs) acc =
        (ts.foldl (fun st t => (import_from_json fs st t (t ++ ".json")).1) acc.1,
          acc.2 ++ ts.map (fun t => (t, importOutcome fs t))) := by
  induction ts with
  | nil => intro acc; simp
  | cons hd tl ih =>
      intro acc
      simp only [List.foldl_cons, List.map_cons, ih, initStep_eq]
      simp

theorem initAll_eq (fs : FS) (s : Store) :
    initAll (some fs) s =
      (tables.foldl (fun st t => (import_from_json fs st t (t ++ ".json")).1) s,
        .ok (tables.map (fun t => (t, importOutcome fs t)))) := by
  simp [initAll, initLoop_eq]

/-- C1 counterexample: importing a file that parses as the empty JSON
array into a table that already holds a row succeeds (returns 0 rows
imported) but leaves the previous row in place — the table's contents
are not replaced by the file's (empty) array, so the claim's
unconditional replace semantics fail. -/
theorem import_empty_keeps_previous_cx :
    (import_from_json [("t.json", FileContent.jsonRows [])] [("t", [cxRow])]
        "t" "t.json").2 = .ok 0 ∧
    alistGet (import_from_json [("t.json", FileContent.jsonRows [])] [("t", [cxRow])]
        "t" "t.json").1 "t" = some [cxRow] ∧
    ([cxRow] : List Row) ≠ [] :=
  ⟨rfl, rfl, by decide⟩

/-- C1 (amended): for a snapshot file that exists and parses as a
non-empty JSON array, a successful import replaces the table's contents
with exactly the file's rows, regardless of what the table held before;
an empty array is a successful no-op import that leaves the store
untouched; and in every case importing the same file a second time
leaves the store and the reported row count identical to a single
import. -/
theorem import_replace_spec (fs : FS) (s : Store) (t p : String) (rows : List Row)
    (h : alistGet fs p = some (.jsonRows rows)) :
    (rows ≠ [] →
      import_from_json fs s t p = (setTable s t rows, .ok rows.length) ∧
      alistGet (setTable s t rows) t = some rows) ∧
    (rows = [] → import_from_json fs s t p = (s, .ok 0)) ∧
    import_from_json fs (import_from_json fs s t p).1 t p =
      import_from_json fs s t p := by
  refine ⟨?_, ?_, ?_⟩
  · intro hne
    exact ⟨by simp [import_from_json, h, hne], alistGet_setTable_self s t rows⟩
  · intro he
    subst he
    simp [import_from_json, h]
  · by_cases hne : rows = []
    · subst hne
      simp [import_from_json, h]
    · simp [import_from_json, h, hne, setTable_setTable_self]

/-- C1 witness: a concrete non-empty import replaces a stale table. -/
theorem import_replace_spec_witness :
    alistGet ([("orders.json", FileContent.jsonRows [ord1Row])] : FS) "orders.json"
      = some (FileContent.jsonRows [ord1Row]) ∧
    ([ord1Row] : List Row) ≠ [] ∧
    import_from_json [("orders.json", FileContent.jsonRows [ord1Row])]
        [("orders", [cxRow])] "orders" "orders.json"
      = (setTable [("orders", [cxRow])] "orders" [ord1Row], .ok 1) ∧
    alistGet (setTable ([("orders", [cxRow])] : Store) "orders" [ord1Row]) "orders"
      = some [ord1Row] :=
  ⟨rfl, by decide,
   ((import_replace_spec [("orders.json", FileContent.jsonRows [ord1Row])]
      [("orders", [cxRow])] "orders" "orders.json" [ord1Row] rfl).1 (by decide)).1,
   ((import_replace_spec [("orders.json", FileContent.jsonRows [ord1Row])]
      [("orders", [cxRow])] "orders" "orders.json" [ord1Row] rfl).1 (by decide)).2⟩

/-- C2 counterexample: a lookup against a store in which the `orders`
table was never created does not yield the absent outcome — it raises
the wrapped query error (SQLite `no such table`), so the claim that a
never-loaded table behaves like a no-match is false. -/
theorem query_missing_table_errors_cx :
    find_order ([] : Store) "ORD1" =
      .error (.queryFailed "Error executing query: no such table: orders") ∧
    exceptIsOk (find_order ([] : Store) "ORD1") = false :=
  ⟨rfl, rfl⟩

/-- C2 (amended): a single-row query against an existing table never
raises — a no-match yields the absent outcome (`ok none`) — while a
query against a table that does not exist in the store fails like any
other execution failure, surfacing as the distinct QueryFailed error. -/
theorem queryOne_absent_spec (s : Store) (tbl col k : String) :
    (∀ rows, alistGet s tbl = some rows → ∃ res, queryOne s tbl col k = .ok res) ∧
    (∀ rows, alistGet s tbl = some rows →
        (∀ r ∈ rows, alistGet r col ≠ some (Value.str k)) →
        queryOne s tbl col k = .ok none) ∧
    (alistGet s tbl = none →
        queryOne s tbl col k =
          .error (.queryFailed ("Error executing query: no such table: " ++ tbl))) := by
  refine ⟨?_, ?_, ?_⟩
  · intro rows h
    refine ⟨(rows.filter (fun r => alistGet r col == some (Value.str k))).head?, ?_⟩
    simp [queryOne, h]
  · intro rows h hnone
    have hfil : rows.filter (fun r => alistGet r col == some (Value.str k)) = [] := by
      rw [List.filter_eq_nil_iff]
      intro r hr
      simp [hnone r hr]
    simp [queryOne, h, hfil]
  · intro h
    simp [queryOne, h]

/-- C2 witness: a no-match lookup on an existing table yields `ok none`. -/
theorem queryOne_absent_spec_witness :
    alistGet ([("orders", [ord1Row])] : Store) "orders" = some [ord1Row] ∧
    queryOne [("orders", [ord1Row])] "orders" "order_no" "ZZZ" = .ok none :=
  ⟨rfl,
   (queryOne_absent_spec [("orders", [ord1Row])] "orders" "order_no" "ZZZ").2.1
     [ord1Row] rfl (by decide)⟩

/-- C3: when the data directory exists, `initAll` never raises and
returns the aggregate map from table name to outcome; an absent
snapshot file is classified SKIPPED with a reason, a parsed array is
classified SUCCESS with its row count, an unparseable file is
classified ERROR with a message; and with `refunds.json` missing while
the other three files parse, the result maps refunds to SKIPPED and the
other three tables to SUCCESS. -/
theorem initAll_outcomes_spec :
    (∀ (fs : FS) (s : Store), ∃ s2, initAll (some fs) s =
        (s2, .ok (tables.map (fun t => (t, importOutcome fs t))))) ∧
    (∀ (fs : FS) (t : String), alistGet fs (t ++ ".json") = none →
        importOutcome fs t = .skipped ("JSON file not found: " ++ (t ++ ".json"))) ∧
    (∀ (fs : FS) (t : String) (rows : List Row),
        alistGet fs (t ++ ".json") = some (.jsonRows rows) →
        importOutcome fs t = .success rows.length) ∧
    (∀ (fs : FS) (t : String), alistGet fs (t ++ ".json") = some .invalid →
        importOutcome fs t =
          .error ("JSON file is empty or invalid: " ++ (t ++ ".json"))) ∧
    (∀ (fs : FS) (s : Store) (rc ro rt : List Row),
        alistGet fs "customers.json" = some (.jsonRows rc) →
        alistGet fs "orders.json" = some (.jsonRows ro) →
        alistGet fs "transactions.json" = some (.jsonRows rt) →
        alistGet fs "refunds.json" = none →
        (initAll (some fs) s).2 = .ok
          [("customers", Outcome.success rc.length),
           ("orders", Outcome.success ro.length),
           ("transactions", Outcome.success rt.length),
           ("refunds", Outcome.skipped "JSON file not found: refunds.json")]) := by
  refine ⟨?_, ?_, ?_, ?_, ?_⟩
  · intro fs s
    exact ⟨_, initAll_eq fs s⟩
  · intro fs t h
    simp [importOutcome, h]
  · intro fs t rows h
    simp [importOutcome, h]
  · intro fs t h
    simp [importOutcome, h]
  · intro fs s rc ro rt h1 h2 h3 h4
    rw [initAll_eq]
    simp [tables, importOutcome, h1, h2, h3, h4]

/-- C3 witness: three present snapshot files and a missing
`refunds.json` yield three SUCCESS outcomes and one SKIPPED. -/
theorem initAll_outcomes_spec_witness :
    alistGet threeFS "customers.json" = some (FileContent.jsonRows [custRow]) ∧
    alistGet threeFS "orders.json" = some (FileContent.jsonRows [ord1Row]) ∧
    alistGet threeFS "transactions.json" = some (FileContent.jsonRows [txRow]) ∧
    alistGet threeFS "refunds.json" = none ∧
    (initAll (some threeFS) []).2 = .ok
      [("customers", Outcome.success 1), ("orders", Outcome.success 1),
       ("transactions", Outcome.success 1),
       ("refunds", Outcome.skipped "JSON file not found: refunds.json")] :=
  ⟨rfl, rfl, rfl, rfl,
   initAll_outcomes_spec.2.2.2.2 threeFS [] [custRow] [ord1Row] [txRow]
     rfl rfl rfl rfl⟩

/-- C4: when the data directory does not exist, `initAll` raises the
file-not-found error and the store is untouched: the state returned
with the error is exactly the state before the call, for every prior
state. -/
theorem initAll_missing_dir_spec (s : Store) :
    initAll none s = (s, .error (.fileNotFound "Data directory not found")) :=
  rfl

/-- C5: after initialization from a data directory whose `orders.json`
is the one-element array holding the ORD1 row, `find_order "ORD1"`
returns exactly that row, and `find_order` of any other order number
returns the absent outcome (`ok none`), not an error. -/
theorem init_find_order_roundtrip_spec (fs : FS) (s : Store)
    (h : alistGet fs "orders.json" = some (.jsonRows [ord1Row])) :
    find_order (initAll (some fs) s).1 "ORD1" = .ok (some ord1Row) ∧
    (∀ k, k ≠ "ORD1" → find_order (initAll (some fs) s).1 k = .ok none) := by
  have h' : alistGet fs ("orders" ++ ".json") = some (.jsonRows [ord1Row]) := h
  have hstore : alistGet (initAll (some fs) s).1 "orders" = some [ord1Row] := by
    rw [initAll_eq]
    simp only [tables, List.foldl]
    rw [import_alistGet_ne fs _ "refunds" _ "orders" (by decide)]
    rw [import_alistGet_ne fs _ "transactions" _ "orders" (by decide)]
    exact import_alistGet_self fs _ "orders" _ [ord1Row] h' (by decide)
  constructor
  · simp [find_order, queryOne, hstore, ord1Row, alistGet]
  · intro k hk
    have hb : (Value.str "ORD1" == Value.str k) = false := by
      simp [Ne.symm hk]
    simp [find_order, queryOne, hstore, ord1Row, alistGet, List.filter, hb]

/-- C5 witness: the round trip evaluated on the concrete one-file data
directory, with "ORD2" as the absent order number. -/
theorem init_find_order_roundtrip_spec_witness :
    alistGet ([("orders.json", FileContent.jsonRows [ord1Row])] : FS) "orders.json"
      = some (FileContent.jsonRows [ord1Row]) ∧
    find_order (initAll (some [("orders.json", FileContent.jsonRows [ord1Row])]) []).1
        "ORD1" = .ok (some ord1Row) ∧
    find_order (initAll (some [("orders.json", FileContent.jsonRows [ord1Row])]) []).1
        "ORD2" = .ok none :=
  ⟨rfl,
   (init_find_order_roundtrip_spec [("orders.json", FileContent.jsonRows [ord1Row])]
     [] rfl).1,
   (init_find_order_roundtrip_spec [("orders.json", FileContent.jsonRows [ord1Row])]
     [] rfl).2 "ORD2" (by decide)⟩

/-- C6: when both the customer id and the email are falsy (omitted or
empty), `find_customer` raises the invalid-argument error — distinct
from a not-found result — and the outcome is the same for every store,
so the call neither reads nor modifies the storage state. -/
theorem find_customer_no_keys_spec (s : Store) (cid em : Option String)
    (hc : strTruthy cid = false) (he : strTruthy em = false) :
    find_customer s cid em =
      .error (.invalidArgument "Either customer_id or email must be provided") ∧
    find_customer s cid em = find_customer [] cid em := by
  constructor <;> simp [find_customer, hc, he]

/-- C6 witness: an empty customer id together with an omitted email
raises the invalid-argument error on a non-trivial store. -/
theorem find_customer_no_keys_spec_witness :
    strTruthy (some "") = false ∧ strTruthy none = false ∧
    find_customer [("customers", [custRow])] (some "") none =
      .error (.invalidArgument "Either customer_id or email must be provided") :=
  ⟨rfl, rfl,
   (find_customer_no_keys_spec [("customers", [custRow])] (some "") none rfl rfl).1⟩

/-- C7: a non-empty customer id makes `find_customer` match on
customer id alone — the result equals the pure customer-id selection,
hence is independent of whatever email argument is also supplied, and
the two keys are never combined. -/
theorem find_customer_id_priority_spec (s : Store) (cid : String)
    (em : Option String) (h : cid ≠ "") :
    find_customer s (some cid) em = queryOne s "customers" "customer_id" cid ∧
    (∀ em', find_customer s (some cid) em = find_customer s (some cid) em') := by
  have ht : strTruthy (some cid) = true := by
    simp [strTruthy, isEmpty_false_of_ne cid h]
  constructor
  · simp [find_customer, ht]
  · intro em'
    simp [find_customer, ht]

/-- C7 witness: with both keys supplied, the concrete lookup matches on
the customer id and ignores the email. -/
theorem find_customer_id_priority_spec_witness :
    ("C1" : String) ≠ "" ∧
    find_customer [("customers", [custRow])] (some "C1") (some "bob@example.com")
      = queryOne [("customers", [custRow])] "customers" "customer_id" "C1" :=
  ⟨by decide,
   (find_customer_id_priority_spec [("customers", [custRow])] "C1"
     (some "bob@example.com") (by decide)).1⟩

/-- C8: importing a snapshot file containing an empty JSON array
succeeds with zero rows imported, and `initAll` classifies that table's
outcome as SUCCESS with a row count of 0, not as ERROR. -/
theorem import_empty_success_spec :
    (∀ (fs : FS) (s : Store) (t p : String),
        alistGet fs p = some (.jsonRows []) →
        import_from_json fs s t p = (s, .ok 0)) ∧
    (∀ (fs : FS) (s : Store) (t : String), t ∈ tables →
        alistGet fs (t ++ ".json") = some (.jsonRows ([] : List Row)) →
        ∃ s2 outs, initAll (some fs) s = (s2, .ok outs) ∧
          (t, Outcome.success 0) ∈ outs) := by
  constructor
  · intro fs s t p h
    simp [import_from_json, h]
  · intro fs s t ht h
    refine ⟨_, _, initAll_eq fs s, ?_⟩
    have hout : importOutcome fs t = Outcome.success 0 := by
      simp [importOutcome, h]
    exact List.mem_map.mpr ⟨t, ht, by rw [hout]⟩

/-- C8 witness: the empty-array import evaluated concretely, both at
the importer and through `initAll`. -/
theorem import_empty_success_spec_witness :
    alistGet ([("orders.json", FileContent.jsonRows [])] : FS) "orders.json"
      = some (FileContent.jsonRows []) ∧
    import_from_json [("orders.json", FileContent.jsonRows [])] [] "orders"
        "orders.json" = ([], .ok 0) ∧
    ("orders" : String) ∈ tables ∧
    (∃ s2 outs, initAll (some [("orders.json", FileContent.jsonRows [])]) []
        = (s2, .ok outs) ∧ ("orders", Outcome.success 0) ∈ outs) :=
  ⟨rfl,
   import_empty_success_spec.1 [("orders.json", FileContent.jsonRows [])] []
     "orders" "orders.json" rfl,
   by decide,
   import_empty_success_spec.2 [("orders.json", FileContent.jsonRows [])] []
     "orders" (by decide) rfl⟩

/-- C9 counterexample: with both query parameters empty (API key
already verified), the `/api/customer` handler returns the successful
empty body, not a 400 — even over a store that holds a customers
table. -/
theorem api_customer_no_params_cx :
    api_find_customer [("customers", [custRow])] "" "" = ApiResponse.ok [] ∧
    isBadRequest (api_find_customer [("customers", [custRow])] "" "") = false :=
  ⟨rfl, rfl⟩

/-- C9 (amended): with a valid API key and neither the email nor the
customer id parameter supplied, the handler returns a 200 with the
empty object as body for every store — the guard returns before the
core lookup is invoked, so the ValueError-to-400 translation is
unreachable in this case and no 400 is produced. -/
theorem api_customer_no_params_spec (s : Store) :
    api_find_customer s "" "" = ApiResponse.ok [] ∧
    isBadRequest (api_find_customer s "" "") = false :=
  ⟨rfl, rfl⟩

/-- C10: an empty-string customer id is treated as not supplied — with
a non-empty email the lookup is performed by email, and symmetrically
an empty-string email with a non-empty customer id is looked up by
customer id. -/
theorem find_customer_empty_id_spec (s : Store) (cid em : String)
    (hc : cid ≠ "") (he : em ≠ "") :
    find_customer s (some "") (some em) = queryOne s "customers" "email" em ∧
    find_customer s (some cid) (some "") = queryOne s "customers" "customer_id" cid := by
  have h0 : ("" : String).isEmpty = true := rfl
  constructor
  · simp [find_customer, strTruthy, h0, isEmpty_false_of_ne em he]
  · simp [find_customer, strTruthy, h0, isEmpty_false_of_ne cid hc]

/-- C10 witness: the two empty-string cases evaluated concretely. -/
theorem find_customer_empty_id_spec_witness :
    ("C1" : String) ≠ "" ∧ ("bob@example.com" : String) ≠ "" ∧
    find_customer [("customers", [custRow])] (some "") (some "bob@example.com")
      = queryOne [("customers", [custRow])] "customers" "email" "bob@example.com" ∧
    find_customer [("customers", [custRow])] (some "C1") (some "")
      = queryOne [("customers", [custRow])] "customers" "customer_id" "C1" :=
  ⟨by decide, by decide,
   (find_customer_empty_id_spec [("customers", [custRow])] "C1" "bob@example.com"
     (by decide) (by decide)).1,
   (find_customer_empty_id_spec [("customers", [custRow])] "C1" "bob@example.com"
     (by decide) (by decide)).2⟩

end OrderMgmt
